import Mathlib

/-!
Verification of the BLE device session engine of BBQ-Manager
(src/ble/__init__.py) against its natural-language specification.

Every definition below is a shallow embedding of the Python code it names;
line numbers refer to src/ble/__init__.py.  Strings on the wire are modelled
as lists of characters; per-session mutable state is modelled by explicit
state passing; exceptions are modelled with Except.
-/

namespace BBQ

/-- UART_SAFE_SIZE (src line 15): the maximum payload of one transport write. -/
def UART_SAFE_SIZE : Nat := 20

/-- The chunking loop of Device._send_cmd (src lines 81-88), run after the
caller has appended the newline terminator (line 79).  It mirrors the Python
loop literally: while the pending text is longer than UART_SAFE_SIZE it writes
the first 20 characters and continues with the slice command[UART_SAFE_SIZE:-1]
(note the -1 bound: the slice also drops the LAST pending character), and a
nonempty remainder is written with one further newline appended, as in the
source expression command + "\n" at line 87. -/
def send_cmd_chunks (command : List Char) : List (List Char) :=
  if _h : UART_SAFE_SIZE < command.length then
    command.take UART_SAFE_SIZE ::
      send_cmd_chunks ((command.drop UART_SAFE_SIZE).dropLast)
  else if 0 < command.length then
    [command ++ ['\n']]
  else
    []
termination_by command.length
decreasing_by
  simp only [List.length_dropLast, List.length_drop]
  omega

/-- Device._send_cmd (src lines 75-88): the sequence of transport writes
issued for one command.  When the session is not running it returns without
writing (line 76); otherwise it appends the line terminator (line 79) and
runs the chunk loop. -/
def send_cmd_writes (running : Bool) (command : List Char) : List (List Char) :=
  if running then send_cmd_chunks (command ++ ['\n']) else []

/-- Position of the first newline in the decoded text, as computed by
command.find of the source (src lines 134 and 147): the index of the first
occurrence of the character, or none where Python returns -1. -/
def findNl : List Char → Option Nat
  | [] => none
  | c :: cs => if c = '\n' then some 0 else (findNl cs).map (· + 1)

/-- The reassembly loop of Device.handle_rx (src lines 130-149), returning the
sequence of complete lines handed to receive_cmd together with the final carry
buffer.  It mirrors the source literally: while a newline is found at index
result, the line is the carry buffer plus command[0:result], the buffer is
then cleared, and the pending text becomes the slice command[result:-1] (note
the -1 bound of line 146: the newline is KEPT at the front and the LAST
character of the pending text is dropped); text with no newline is appended to
the carry buffer.  The per-line receive_cmd call is wrapped in try/except in
the source (lines 139-142), so its outcome does not influence this loop. -/
def rx_lines (buffer command : List Char) : List (List Char) × List Char :=
  match _h : findNl command with
  | none => ([], buffer ++ command)
  | some r =>
      let p := rx_lines [] ((command.drop r).dropLast)
      ((buffer ++ command.take r) :: p.1, p.2)
termination_by command.length
decreasing_by
  cases command with
  | nil => simp [findNl] at _h
  | cons c cs =>
      simp only [List.length_dropLast, List.length_drop, List.length_cons]
      omega

/-- Events a Device emits while handling one inbound line: transport writes
performed by _send_cmd, the device_connected signal (src line 110), the
updated signal (src line 120), and the resolution of a pending future with
the first argument of the line or None (src line 123). -/
inductive DevEvent where
  | write (chunk : List Char)
  | device_connected
  | updated
  | resolved (command : List Char) (value : Option (List Char))
deriving DecidableEq

/-- Per-session state read or written by Device.receive_cmd.  The fields
queued_commands and pending_receives are the queue and registry this session
observes; pending_receives is modelled by its registered keywords. -/
structure DevState where
  running : Bool
  connected : Bool
  battery : Int
  firmware : List Char
  queued_commands : List (List Char)
  pending_receives : List (List Char)
deriving DecidableEq

/-- Python str.split with a one-character separator, as used at src line 101:
the text is cut at every occurrence of the separator, and splitting empty
text yields one empty field, so the result is never the empty list. -/
def pySplit (sep : Char) : List Char → List (List Char)
  | [] => [[]]
  | c :: cs =>
      if c = sep then [] :: pySplit sep cs
      else
        match pySplit sep cs with
        | [] => [[c]]
        | w :: ws => (c :: w) :: ws

/-- Python int() as applied at src line 113, for the bare decimal notation
the protocol uses: an optional sign followed by one or more digits; anything
else raises ValueError (modelled as none). -/
def pyInt? (s : List Char) : Option Int :=
  match s with
  | [] => none
  | '-' :: ds =>
      if ds ≠ [] ∧ ds.all Char.isDigit = true then
        some (-(ds.foldl (fun n c => 10 * n + (c.toNat - '0'.toNat)) 0 : Nat))
      else none
  | '+' :: ds =>
      if ds ≠ [] ∧ ds.all Char.isDigit = true then
        some ((ds.foldl (fun n c => 10 * n + (c.toNat - '0'.toNat)) 0 : Nat))
      else none
  | ds =>
      if ds.all Char.isDigit = true then
        some ((ds.foldl (fun n c => 10 * n + (c.toNat - '0'.toNat)) 0 : Nat))
      else none

/-- The transport writes of the immediate pong reply (src line 107):
Device._send_cmd is called directly, so the writes depend on the running
flag exactly as in send_cmd_writes. -/
def pongWrites (st : DevState) : List DevEvent :=
  (send_cmd_writes st.running ("pong".toList)).map DevEvent.write

/-- The per-keyword handling of Device.receive_cmd (src lines 105-118), up to
but not including the updated signal.  Errors model the Python exceptions:
split[1] on a one-field line raises IndexError, int() on a non-numeric
argument raises ValueError.  The ping branch replies pong and, when the
session is not yet connected, emits device_connected and sets the flag
(lines 105-111); battery stores int(split[1]) (line 113); firmware stores
split[1] (line 115); setsettings with argument "ok" enqueues getsettings via
send_cmd, which appends only while running (lines 116-118 and 90-94). -/
def handlerStep (st : DevState) (command : List Char)
    (split : List (List Char)) :
    Except String (DevState × List DevEvent) :=
  if command = "ping".toList then
    if st.connected then
      Except.ok (st, pongWrites st)
    else
      Except.ok ({ st with connected := true },
        pongWrites st ++ [DevEvent.device_connected])
  else if command = "battery".toList then
    match split[1]? with
    | none => Except.error "IndexError"
    | some a =>
        match pyInt? a with
        | none => Except.error "ValueError"
        | some n => Except.ok ({ st with battery := n }, [])
  else if command = "firmware".toList then
    match split[1]? with
    | none => Except.error "IndexError"
    | some a => Except.ok ({ st with firmware := a }, [])
  else if command = "setsettings".toList then
    match split[1]? with
    | none => Except.error "IndexError"
    | some a =>
        if a = "ok".toList then
          Except.ok
            ({ st with queued_commands :=
                if st.running then
                  st.queued_commands ++ ["getsettings".toList]
                else st.queued_commands }, [])
        else Except.ok (st, [])
  else Except.ok (st, [])

/-- The pending-future resolution at the end of Device.receive_cmd (src lines
122-124): if a future is registered under the keyword it is resolved with
split[1] when present and None otherwise, and the registration is popped. -/
def resolveStep (st : DevState) (command : List Char)
    (split : List (List Char)) :
    DevState × List DevEvent :=
  if command ∈ st.pending_receives then
    ({ st with pending_receives := st.pending_receives.erase command },
     [DevEvent.resolved command split[1]?])
  else (st, [])

/-- Device.receive_cmd (src lines 100-124): split the line on ":", run the
per-keyword handler, then emit updated (line 120), then resolve any pending
future under the keyword (lines 122-124).  An exception escaping the handler
aborts the rest of the method, so neither updated nor the resolution happen
for that line. -/
def receive_cmd (st : DevState) (data : List Char) :
    Except String (DevState × List DevEvent) :=
  match pySplit ':' data with
  | [] => Except.error "IndexError"
  | command :: rest =>
      match handlerStep st command (command :: rest) with
      | Except.error e => Except.error e
      | Except.ok (st1, hevs) =>
          let r := resolveStep st1 command (command :: rest)
          Except.ok (r.1, hevs ++ [DevEvent.updated] ++ r.2)

/-- One line as processed from Device.handle_rx (src lines 139-142): the
receive_cmd call sits in try/except pass, so a raising line leaves the state
unchanged and produces no events. -/
def processLine (st : DevState) (line : List Char) :
    DevState × List DevEvent :=
  match receive_cmd st line with
  | Except.ok r => r
  | Except.error _ => (st, [])

/-- Successive complete lines processed through Device.handle_rx, with the
emitted events concatenated in order. -/
def processLines (st : DevState) (lines : List (List Char)) :
    DevState × List DevEvent :=
  match lines with
  | [] => (st, [])
  | l :: ls =>
      let p := processLine st l
      let q := processLines p.1 ls
      (q.1, p.2 ++ q.2)

/-- The registration step of Device._get_response (src line 68): the dict
assignment pending_receives[command] = future registers the waiter keyword,
keeping its position when already present. -/
def registerWaiter (pending : List (List Char)) (command : List Char) :
    List (List Char) :=
  if command ∈ pending then pending else pending ++ [command]

/-- The timeout path of Device._get_response (src lines 65-73): the waiter is
registered (line 68), asyncio.wait_for gives no result within 2.0 time units,
and the except branch returns None (lines 72-73).  No statement on this path
removes the registration; the only pop of pending_receives in the program is
in receive_cmd (src line 124), which runs only when a matching response
arrives. -/
def get_response_timeout (pending : List (List Char)) (command : List Char) :
    Option (List Char) × List (List Char) :=
  (none, registerWaiter pending command)

/-- The class attribute namespace of Device (src lines 31-32): the class body
binds queued_commands to one list object and pending_receives to one dict
object.  Device.__init__ (src lines 51-59) assigns only scanner, ble, name,
read_buffer, running and connected on the instance, so no instance ever
shadows these two names: attribute lookup on every instance resolves to the
same class-level objects, and mutating them through one instance is visible
through all others. -/
structure DeviceClassAttrs where
  queued_commands : List (List Char)
  pending_receives : List (List Char)
deriving DecidableEq

/-- Device.send_cmd (src lines 90-94) as invoked on the instance with index
i: when the instance is running, self.queued_commands.append(command) looks
the name up on the class (no instance attribute exists) and mutates the
shared class-level list in place. -/
def Device_send_cmd (w : DeviceClassAttrs) (_i : Nat) (running : Bool)
    (command : List Char) : DeviceClassAttrs :=
  if running then
    { w with queued_commands := w.queued_commands ++ [command] }
  else w

/-- The queue observed through instance i: the lookup self.queued_commands
finds no instance attribute and falls back to the class attribute, which is
the same object for every i. -/
def queueSeenBy (w : DeviceClassAttrs) (_i : Nat) : List (List Char) :=
  w.queued_commands

/-- A Python runtime value as it can appear in Device.run: a text response, a
None resolution, or the coroutine object produced by calling an async def
without awaiting it. -/
inductive PyVal where
  | vstr (s : List Char)
  | vnone
  | coroutineObj (fn : List Char)
deriving DecidableEq

/-- Python subscription v[i] for the values above: indexing a string yields
the one-character string at that position or raises IndexError; subscripting
None or a coroutine object raises TypeError. -/
def pySubscript (v : PyVal) (i : Nat) : Except String PyVal :=
  match v with
  | PyVal.vstr s =>
      match s[i]? with
      | some c => Except.ok (PyVal.vstr [c])
      | none => Except.error "IndexError"
  | PyVal.vnone => Except.error "TypeError: NoneType is not subscriptable"
  | PyVal.coroutineObj _ =>
      Except.error "TypeError: coroutine object is not subscriptable"

/-- Python float() for the plain decimal notation the protocol sends (§6 of
the spec: the six imudata arguments are decimal): an optional minus sign,
one or more digits, and an optional fractional part.  The value is returned
as an exact rational. -/
def pyFloat? (s : List Char) : Option Rat :=
  let natPart? : List Char → Option Nat := fun t =>
    if t ≠ [] ∧ t.all Char.isDigit = true then
      some (t.foldl (fun n c => 10 * n + (c.toNat - '0'.toNat)) 0)
    else none
  let core : List Char → Option Rat := fun t =>
    match pySplit '.' t with
    | [w] => (natPart? w).map (fun n => (n : Rat))
    | [w, f] =>
        match natPart? w, natPart? f with
        | some n, some m =>
            some ((n : Rat) + (m : Rat) / ((10 : Rat) ^ f.length))
        | _, _ => none
    | _ => none
  match s with
  | '-' :: t => (core t).map (fun q => -q)
  | t => core t

/-- The imudata phase of one Device.run iteration (src lines 190-194).  Line
191 reads `result = self._get_response("imudata")` with NO await, so result
is bound to the coroutine object itself, whatever the device answered; line
192 then evaluates result[1], which raises TypeError before any of the six
comma-separated arguments can be parsed or either motion vector assigned.
The parsing and assignment that lines 192-194 would perform on a string
response are modelled in full in the vstr branch. -/
def run_imudata_step : Except String ((Rat × Rat × Rat) × (Rat × Rat × Rat)) :=
  let result : PyVal := PyVal.coroutineObj "_get_response".toList
  match pySubscript result 1 with
  | Except.error e => Except.error e
  | Except.ok (PyVal.vstr s) =>
      let split2 := pySplit ',' s
      match split2[0]?, split2[1]?, split2[2]?,
            split2[3]?, split2[4]?, split2[5]? with
      | some a0, some a1, some a2, some a3, some a4, some a5 =>
          match pyFloat? a0, pyFloat? a1, pyFloat? a2,
                pyFloat? a3, pyFloat? a4, pyFloat? a5 with
          | some x, some y, some z, some gx, some gy, some gz =>
              Except.ok ((x, y, z), (gx, gy, gz))
          | _, _, _, _, _, _ => Except.error "ValueError"
      | _, _, _, _, _, _ => Except.error "IndexError"
  | Except.ok _ => Except.error "TypeError: value is not a string"

/-- Fleet-level events emitted through the Scanner signals (src lines
251-259). -/
inductive FleetEvent where
  | disconnect_started
  | disconnect_finished
  | device_disconnecting (addr : String)
  | device_disconnected (addr : String)
deriving DecidableEq

/-- One Device object as the fleet operations see it: its peer address and
its running and connected flags. -/
structure Sess where
  addr : String
  running : Bool
  connected : Bool
deriving DecidableEq

/-- State touched by the fleet operations: the pool of live Device objects
(identified by address), the keys of the Scanner.devices map in insertion
order, the Scanner.blacklisted_ids list, and the emitted events. -/
structure FleetState where
  pool : List Sess
  deviceAddrs : List String
  blacklisted_ids : List String
  events : List FleetEvent
deriving DecidableEq

/-- Look a session object up by address in the pool. -/
def getSess (pool : List Sess) (a : String) : Option Sess :=
  pool.find? (fun s => s.addr == a)

/-- The assignment self.running = False on the session with address a. -/
def setRunningFalse (pool : List Sess) (a : String) : List Sess :=
  pool.map (fun s => if s.addr == a then { s with running := false } else s)

/-- Device.disconnect_device (src lines 229-242) for the session with
address a: a no-op when the session is not running (lines 230-231);
otherwise running is cleared, device_disconnecting is emitted, the transport
is closed (external, no modelled state), and when the address is still in
the fleet map, device_disconnected is emitted and the entry deleted (lines
240-242). -/
def disconnect_device (st : FleetState) (a : String) : FleetState :=
  match getSess st.pool a with
  | none => st
  | some s =>
      if s.running = false then st
      else if a ∈ st.deviceAddrs then
        { st with
          pool := setRunningFalse st.pool a,
          deviceAddrs := st.deviceAddrs.erase a,
          events := st.events ++ [FleetEvent.device_disconnecting a,
            FleetEvent.device_disconnected a] }
      else
        { st with
          pool := setRunningFalse st.pool a,
          events := st.events ++ [FleetEvent.device_disconnecting a] }

/-- Device.handle_disconnect (src lines 155-162), the transport's
out-of-band disconnect callback for the session with address a: running is
cleared unconditionally, the address is appended to the scanner blacklist,
and when the address is in the fleet map, device_disconnected is emitted and
the entry deleted. -/
def handle_disconnect (st : FleetState) (a : String) : FleetState :=
  if a ∈ st.deviceAddrs then
    { st with
      pool := setRunningFalse st.pool a,
      blacklisted_ids := st.blacklisted_ids ++ [a],
      deviceAddrs := st.deviceAddrs.erase a,
      events := st.events ++ [FleetEvent.device_disconnected a] }
  else
    { st with
      pool := setRunningFalse st.pool a,
      blacklisted_ids := st.blacklisted_ids ++ [a] }

/-- Scanner.disconnect_devices (src lines 342-347): l is a snapshot of the
map values, the loop runs range(len(self.devices)) times, and each iteration
disconnects l[0] (the source indexes 0, not the loop variable). -/
def disconnect_devices (st : FleetState) : FleetState :=
  let l := st.deviceAddrs
  (List.range l.length).foldl
    (fun s _ =>
      match l[0]? with
      | some a => disconnect_device s a
      | none => s) st

/-- Scanner.disconnect_ble_devices (src lines 329-332): emit
disconnect_started, run disconnect_devices, emit disconnect_finished. -/
def disconnect_ble_devices (st : FleetState) : FleetState :=
  let st1 := { st with events := st.events ++ [FleetEvent.disconnect_started] }
  let st2 := disconnect_devices st1
  { st2 with events := st2.events ++ [FleetEvent.disconnect_finished] }

theorem send_cmd_chunks_gt {command : List Char}
    (h : UART_SAFE_SIZE < command.length) :
    send_cmd_chunks command =
      command.take UART_SAFE_SIZE ::
        send_cmd_chunks ((command.drop UART_SAFE_SIZE).dropLast) := by
  rw [send_cmd_chunks]
  simp [h]

theorem send_cmd_chunks_small {command : List Char}
    (h1 : ¬ UART_SAFE_SIZE < command.length) (h2 : 0 < command.length) :
    send_cmd_chunks command = [command ++ ['\n']] := by
  rw [send_cmd_chunks]
  simp [h1, h2]

theorem send_cmd_chunks_nil : send_cmd_chunks [] = [] := by
  rw [send_cmd_chunks]
  simp [UART_SAFE_SIZE]

/-- C1: the spec says an over-long payload is sent as ceil(len/20) writes of
at most 20 bytes whose concatenation is the payload.  The code loses data
instead: a 20-character command (21-byte payload) is sent as a single 20-byte
write, dropping the trailing newline, and a 41-character command (42-byte
payload) is sent as two writes totalling 40 bytes, dropping a data byte and
the terminator. -/
theorem C1_chunking_at_failing_inputs :
    send_cmd_writes true (List.replicate 20 'a') = [List.replicate 20 'a'] ∧
    (send_cmd_writes true (List.replicate 20 'a')).flatten.length = 20 ∧
    (List.replicate 20 'a' ++ ['\n']).length = 21 ∧
    (send_cmd_writes true (List.replicate 41 'b')).flatten
      = List.replicate 40 'b' ∧
    (List.replicate 41 'b' ++ ['\n']).length = 42 := by
  have e1 : send_cmd_writes true (List.replicate 20 'a')
      = [List.replicate 20 'a'] := by
    rw [send_cmd_writes, if_pos rfl]
    rw [send_cmd_chunks_gt (by decide)]
    rw [show ((List.replicate 20 'a' ++ ['\n']).drop UART_SAFE_SIZE).dropLast
          = ([] : List Char) from by decide]
    rw [send_cmd_chunks_nil]
    decide
  have e2 : send_cmd_writes true (List.replicate 41 'b')
      = [List.replicate 20 'b', List.replicate 20 'b'] := by
    rw [send_cmd_writes, if_pos rfl]
    rw [send_cmd_chunks_gt (by decide)]
    rw [show ((List.replicate 41 'b' ++ ['\n']).drop UART_SAFE_SIZE).dropLast
          = List.replicate 21 'b' from by decide]
    rw [send_cmd_chunks_gt (by decide)]
    rw [show ((List.replicate 21 'b').drop UART_SAFE_SIZE).dropLast
          = ([] : List Char) from by decide]
    rw [send_cmd_chunks_nil]
    decide
  refine ⟨e1, ?_, by decide, ?_, by decide⟩
  · rw [e1]; decide
  · rw [e2]; decide

theorem rx_lines_none {buffer command : List Char}
    (h : findNl command = none) :
    rx_lines buffer command = ([], buffer ++ command) := by
  rw [rx_lines]
  split
  · rfl
  · rename_i r hr; rw [h] at hr; cases hr

theorem rx_lines_some {buffer command : List Char} {r : Nat}
    (h : findNl command = some r) :
    rx_lines buffer command =
      ((buffer ++ command.take r) :: (rx_lines [] ((command.drop r).dropLast)).1,
       (rx_lines [] ((command.drop r).dropLast)).2) := by
  rw [rx_lines]
  split
  · rename_i hn; rw [h] at hn; cases hn
  · rename_i r' hr; rw [h] at hr; cases hr; rfl

/-- C2: the spec says the reassembler delivers the same lines for any
fragmentation and retains the trailing partial line.  The code does not: the
single contiguous packet "a\nb" is delivered as the two lines "a" and "" with
an empty carry buffer (the partial line "b" is destroyed and a spurious empty
line is delivered), while the same bytes split as "a\n" then "b" are delivered
as the single line "a" with carry buffer "b". -/
theorem C2_reassembly_at_failing_input :
    rx_lines [] ['a', '\n', 'b'] = ([['a'], []], []) ∧
    rx_lines [] ['a', '\n'] = ([['a']], []) ∧
    rx_lines [] ['b'] = ([], ['b']) := by
  have s1 : rx_lines [] ['a', '\n', 'b'] = ([['a'], []], []) := by
    rw [rx_lines_some (show findNl ['a', '\n', 'b'] = some 1 from by decide)]
    rw [show ((['a', '\n', 'b'].drop 1).dropLast : List Char) = ['\n'] from by
      decide]
    rw [rx_lines_some (show findNl ['\n'] = some 0 from by decide)]
    rw [show ((['\n'].drop 0).dropLast : List Char) = [] from by decide]
    rw [rx_lines_none (by decide)]
    decide
  have s2 : rx_lines [] ['a', '\n'] = ([['a']], []) := by
    rw [rx_lines_some (show findNl ['a', '\n'] = some 1 from by decide)]
    rw [show ((['a', '\n'].drop 1).dropLast : List Char) = [] from by decide]
    rw [rx_lines_none (by decide)]
    decide
  have s3 : rx_lines [] ['b'] = ([], ['b']) := by
    rw [rx_lines_none (by decide)]
    decide
  exact ⟨s1, s2, s3⟩

theorem pongWrites_count_updated (st : DevState) :
    (pongWrites st).count DevEvent.updated = 0 := by
  rw [List.count_eq_zero]
  simp [pongWrites]

theorem pongWrites_count_connected (st : DevState) :
    (pongWrites st).count DevEvent.device_connected = 0 := by
  rw [List.count_eq_zero]
  simp [pongWrites]

theorem pongWrites_no_resolved (st : DevState) (c : List Char)
    (v : Option (List Char)) :
    DevEvent.resolved c v ∉ pongWrites st := by
  simp [pongWrites]

theorem handlerStep_ok {st : DevState} {command : List Char}
    {split : List (List Char)}
    {st1 : DevState} {hevs : List DevEvent}
    (h : handlerStep st command split = Except.ok (st1, hevs)) :
    st1.pending_receives = st.pending_receives ∧
    hevs.count DevEvent.updated = 0 ∧
    (∀ c v, DevEvent.resolved c v ∉ hevs) ∧
    (st.connected = true → st1.connected = true ∧
      hevs.count DevEvent.device_connected = 0) := by
  unfold handlerStep at h
  repeat' split at h
  all_goals
    first
    | (simp only [Except.ok.injEq, Prod.mk.injEq] at h;
       obtain ⟨rfl, rfl⟩ := h;
       refine ⟨rfl, ?_, ?_, ?_⟩ <;>
         simp_all [pongWrites_count_updated, pongWrites_count_connected,
           pongWrites_no_resolved, List.count_append, List.count_cons])
    | simp at h

theorem resolveStep_fields (st : DevState) (command : List Char)
    (split : List (List Char)) :
    (resolveStep st command split).1.connected = st.connected ∧
    (resolveStep st command split).2.count DevEvent.updated = 0 ∧
    (resolveStep st command split).2.count DevEvent.device_connected = 0 := by
  unfold resolveStep
  split <;> simp [List.count_cons]

theorem resolveStep_mem {st : DevState} {command : List Char}
    (split : List (List Char)) (h : command ∈ st.pending_receives) :
    resolveStep st command split =
      ({ st with pending_receives := st.pending_receives.erase command },
       [DevEvent.resolved command split[1]?]) := by
  unfold resolveStep
  rw [if_pos h]

theorem resolveStep_not_mem {st : DevState} {command : List Char}
    (split : List (List Char)) (h : command ∉ st.pending_receives) :
    resolveStep st command split = (st, []) := by
  unfold resolveStep
  rw [if_neg h]

theorem receive_cmd_eq (st : DevState) (data : List Char) (command : List Char)
    (rest : List (List Char)) (hsp : pySplit ':' data = command :: rest) :
    receive_cmd st data =
      match handlerStep st command (command :: rest) with
      | Except.error e => Except.error e
      | Except.ok (st1, hevs) =>
          let r := resolveStep st1 command (command :: rest)
          Except.ok (r.1, hevs ++ [DevEvent.updated] ++ r.2) := by
  unfold receive_cmd
  rw [hsp]

theorem processLine_connected {st : DevState} (h : st.connected = true)
    (line : List Char) :
    (processLine st line).1.connected = true ∧
    (processLine st line).2.count DevEvent.device_connected = 0 := by
  unfold processLine
  cases hr : receive_cmd st line with
  | error e => exact ⟨h, rfl⟩
  | ok p =>
      obtain ⟨st', evs⟩ := p
      cases hsp : pySplit ':' line with
      | nil => rw [receive_cmd, hsp] at hr; simp at hr
      | cons c rest =>
          rw [receive_cmd_eq st line c rest hsp] at hr
          cases hh : handlerStep st c (c :: rest) with
          | error e => rw [hh] at hr; simp at hr
          | ok q =>
              obtain ⟨st1, hevs⟩ := q
              rw [hh] at hr
              simp only [Except.ok.injEq, Prod.mk.injEq] at hr
              obtain ⟨rfl, rfl⟩ := hr
              have hso := handlerStep_ok hh
              have hc1 := (hso.2.2.2 h).1
              have hc2 := (hso.2.2.2 h).2
              have hrf := resolveStep_fields st1 c (c :: rest)
              refine ⟨by rw [hrf.1]; exact hc1, ?_⟩
              simp [List.count_append, List.count_cons, hc2, hrf.2.2]

theorem processLines_connected {lines : List (List Char)} {st : DevState}
    (h : st.connected = true) :
    (processLines st lines).1.connected = true ∧
    (processLines st lines).2.count DevEvent.device_connected = 0 := by
  induction lines generalizing st with
  | nil => exact ⟨h, rfl⟩
  | cons l ls ih =>
      have h1 := processLine_connected h l
      have h2 := ih h1.1
      simp [processLines, List.count_append, h1.2, h2.1, h2.2]

theorem processLine_ping_connects {st : DevState} (h : st.connected = false) :
    (processLine st "ping".toList).1.connected = true ∧
    (processLine st "ping".toList).2.count DevEvent.device_connected = 1 := by
  have hsp : pySplit ':' "ping".toList = ["ping".toList] := by decide
  have hh : handlerStep st "ping".toList ["ping".toList] =
      Except.ok ({ st with connected := true },
        pongWrites st ++ [DevEvent.device_connected]) := by
    unfold handlerStep
    rw [if_pos rfl, if_neg (by simp [h])]
  unfold processLine
  rw [receive_cmd_eq st "ping".toList "ping".toList [] hsp, hh]
  have hrf := resolveStep_fields { st with connected := true } "ping".toList
    ["ping".toList]
  refine ⟨hrf.1, ?_⟩
  simpa [List.count_append, List.count_cons, pongWrites_count_connected]
    using hrf.2.2

/-- C9: starting from a session with connected = false, any nonempty run of
inbound ping lines leaves the session connected and emits device_connected
exactly once, and a session that is already connected never emits another
device_connected event for any processed line: receive_cmd (src lines
105-111) is the only emitter, it guards on the flag, and no operation resets
the flag. -/
theorem C9_ping_connects_once (st : DevState) (n : Nat)
    (hc : st.connected = false) (hn : 1 ≤ n) :
    ((processLines st (List.replicate n "ping".toList)).1.connected = true ∧
      (processLines st (List.replicate n "ping".toList)).2.count
        DevEvent.device_connected = 1) ∧
    (∀ st2 line, st2.connected = true →
      (processLine st2 line).1.connected = true ∧
      (processLine st2 line).2.count DevEvent.device_connected = 0) := by
  constructor
  · obtain ⟨m, rfl⟩ : ∃ m, n = m + 1 := ⟨n - 1, by omega⟩
    rw [List.replicate_succ]
    have h1 := processLine_ping_connects hc
    have h2 := @processLines_connected (List.replicate m "ping".toList) _ h1.1
    have e : processLines st ("ping".toList :: List.replicate m "ping".toList)
        = ((processLines (processLine st "ping".toList).1
              (List.replicate m "ping".toList)).1,
           (processLine st "ping".toList).2 ++
             (processLines (processLine st "ping".toList).1
               (List.replicate m "ping".toList)).2) := rfl
    constructor
    · rw [e]
      exact h2.1
    · rw [e]
      show List.count DevEvent.device_connected
          ((processLine st "ping".toList).2 ++
            (processLines (processLine st "ping".toList).1
              (List.replicate m "ping".toList)).2) = 1
      rw [List.count_append, h1.2, h2.2]
  · intro st2 line h
    exact processLine_connected h line

/-- C9 witness: the theorem applied to a concrete fresh session processing
three ping lines. -/
theorem C9_ping_connects_once_witness :
    ((processLines ⟨false, false, 0, "unknown".toList, [], []⟩
        (List.replicate 3 "ping".toList)).1.connected = true ∧
      (processLines ⟨false, false, 0, "unknown".toList, [], []⟩
        (List.replicate 3 "ping".toList)).2.count
          DevEvent.device_connected = 1) ∧
    (∀ st2 line, st2.connected = true →
      (processLine st2 line).1.connected = true ∧
      (processLine st2 line).2.count DevEvent.device_connected = 0) :=
  C9_ping_connects_once ⟨false, false, 0, "unknown".toList, [], []⟩ 3 rfl
    (by decide)

/-- C7 counterexample: on the malformed line "battery:x" receive_cmd raises
ValueError (int of a non-digit) before reaching the updated emit of src line
120, so no updated event is emitted and the waiter registered under battery
is neither resolved nor removed; handle_rx then swallows the line with no
state change.  This refutes the claim that every complete inbound line,
including malformed ones, yields exactly one updated event followed by
waiter resolution. -/
theorem C7_counterexample_malformed_battery :
    receive_cmd ⟨true, true, 0, "unknown".toList, [], ["battery".toList]⟩
        "battery:x".toList = Except.error "ValueError" ∧
    processLine ⟨true, true, 0, "unknown".toList, [], ["battery".toList]⟩
        "battery:x".toList
      = (⟨true, true, 0, "unknown".toList, [], ["battery".toList]⟩, []) := by
  constructor <;> rfl

/-- C7 (amended): every line whose per-keyword handling completes without
raising yields exactly one updated event, and then any waiter registered
under the keyword is resolved with argument 1 when present and an absent
value otherwise and its registration removed; a line whose handling raises
is swallowed with no state change and no events, and subsequent lines are
still processed. -/
theorem C7_router_amended (st : DevState) (data : List Char) (st' : DevState)
    (evs : List DevEvent)
    (h : receive_cmd st data = Except.ok (st', evs)) :
    evs.count DevEvent.updated = 1 ∧
    (∀ command rest, pySplit ':' data = command :: rest →
      (command ∈ st.pending_receives →
        st'.pending_receives = st.pending_receives.erase command ∧
        DevEvent.resolved command (command :: rest)[1]? ∈ evs) ∧
      (command ∉ st.pending_receives →
        st'.pending_receives = st.pending_receives ∧
        ∀ c v, DevEvent.resolved c v ∉ evs)) ∧
    (∀ st2 line e, receive_cmd st2 line = Except.error e →
      processLine st2 line = (st2, [])) ∧
    (∀ st2 l ls e, receive_cmd st2 l = Except.error e →
      processLines st2 (l :: ls) = processLines st2 ls) := by
  have swallow : ∀ st2 line e, receive_cmd st2 line = Except.error e →
      processLine st2 line = (st2, []) := by
    intro st2 line e h2
    unfold processLine
    rw [h2]
  have chain : ∀ st2 l ls e, receive_cmd st2 l = Except.error e →
      processLines st2 (l :: ls) = processLines st2 ls := by
    intro st2 l ls e h2
    have e1 : processLines st2 (l :: ls)
        = ((processLines (processLine st2 l).1 ls).1,
           (processLine st2 l).2 ++ (processLines (processLine st2 l).1 ls).2) :=
      rfl
    rw [e1, swallow st2 l e h2]
    rfl
  cases hsp : pySplit ':' data with
  | nil =>
      unfold receive_cmd at h
      rw [hsp] at h
      simp at h
  | cons c rest =>
      rw [receive_cmd_eq st data c rest hsp] at h
      cases hh : handlerStep st c (c :: rest) with
      | error e => rw [hh] at h; simp at h
      | ok q =>
          obtain ⟨st1, hevs⟩ := q
          rw [hh] at h
          simp only [Except.ok.injEq, Prod.mk.injEq] at h
          obtain ⟨rfl, rfl⟩ := h
          have hso := handlerStep_ok hh
          have hrf := resolveStep_fields st1 c (c :: rest)
          refine ⟨?_, ?_, swallow, chain⟩
          · simp [List.count_append, List.count_cons, hso.2.1, hrf.2.1]
          · intro command rest' hsp'
            injection hsp' with hc1 hc2
            subst hc1
            subst hc2
            constructor
            · intro hmem
              have hmem1 : c ∈ st1.pending_receives := by
                rw [hso.1]; exact hmem
              rw [resolveStep_mem (c :: rest) hmem1]
              constructor
              · simp [hso.1]
              · simp
            · intro hmem
              have hmem1 : c ∉ st1.pending_receives := by
                rw [hso.1]; exact hmem
              rw [resolveStep_not_mem (c :: rest) hmem1]
              refine ⟨hso.1, ?_⟩
              intro c' v
              simp [List.mem_append, hso.2.2.1 c' v]

/-- C7 witness: the amended theorem applied to the well-formed line
"battery:87" arriving at a session with a waiter registered under battery. -/
theorem C7_router_amended_witness :
    ([DevEvent.updated,
      DevEvent.resolved "battery".toList (some "87".toList)].count
        DevEvent.updated = 1) ∧
    (∀ command rest,
      pySplit ':' "battery:87".toList = command :: rest →
      (command ∈ (⟨true, false, 0, "unknown".toList, [],
          ["battery".toList]⟩ : DevState).pending_receives →
        (⟨true, false, 87, "unknown".toList, [], []⟩ :
            DevState).pending_receives
          = (⟨true, false, 0, "unknown".toList, [],
              ["battery".toList]⟩ : DevState).pending_receives.erase command ∧
        DevEvent.resolved command (command :: rest)[1]?
          ∈ [DevEvent.updated,
             DevEvent.resolved "battery".toList (some "87".toList)]) ∧
      (command ∉ (⟨true, false, 0, "unknown".toList, [],
          ["battery".toList]⟩ : DevState).pending_receives →
        (⟨true, false, 87, "unknown".toList, [], []⟩ :
            DevState).pending_receives
          = (⟨true, false, 0, "unknown".toList, [],
              ["battery".toList]⟩ : DevState).pending_receives ∧
        ∀ c v, DevEvent.resolved c v
          ∉ [DevEvent.updated,
             DevEvent.resolved "battery".toList (some "87".toList)])) ∧
    (∀ st2 line e, receive_cmd st2 line = Except.error e →
      processLine st2 line = (st2, [])) ∧
    (∀ st2 l ls e, receive_cmd st2 l = Except.error e →
      processLines st2 (l :: ls) = processLines st2 ls) :=
  C7_router_amended
    ⟨true, false, 0, "unknown".toList, [], ["battery".toList]⟩
    "battery:87".toList
    ⟨true, false, 87, "unknown".toList, [], []⟩
    [DevEvent.updated, DevEvent.resolved "battery".toList (some "87".toList)]
    rfl

/-- C4: the spec says a timed-out waiter yields None and the registry no
longer holds the keyword afterward.  The code does return None, but the
registration for the keyword is still present after the call returns. -/
theorem C4_timeout_leaves_registration :
    (get_response_timeout [] "time".toList).1 = none ∧
    "time".toList ∈ (get_response_timeout [] "time".toList).2 := by
  constructor
  · rfl
  · decide

/-- C3: the spec says each session owns its queue and registry and enqueuing
on one session never changes what another session observes.  In the code the
queue is a class attribute shared by every instance: after instance 0
enqueues "gettime", instance 1 observes the command in its queue as well. -/
theorem C3_shared_class_state :
    queueSeenBy (Device_send_cmd ⟨[], []⟩ 0 true "gettime".toList) 1
      = ["gettime".toList] ∧
    queueSeenBy (⟨[], []⟩ : DeviceClassAttrs) 1 = [] := by
  constructor <;> rfl

/-- C5: the spec says the polling loop awaits the imudata response and
updates the two motion vectors from its six decimal arguments.  The code
never does: the un-awaited call leaves result bound to the coroutine object
and result[1] raises TypeError on every iteration, so the step never
produces updated vectors no matter what the device answered. -/
theorem C5_imudata_step_raises :
    run_imudata_step
      = Except.error "TypeError: coroutine object is not subscriptable" := rfl

/-- C6: the spec says disconnect-all disconnects every open session exactly
once between the started and finished events.  On a fleet of two running
sessions A and B the code disconnects A twice (the second call a no-op) and
never touches B: afterwards B is still running and still in the fleet map,
and only one disconnecting event was emitted. -/
theorem C6_disconnect_all_skips_sessions :
    (disconnect_ble_devices
        ⟨[⟨"A", true, true⟩, ⟨"B", true, true⟩], ["A", "B"], [], []⟩).events
      = [FleetEvent.disconnect_started,
         FleetEvent.device_disconnecting "A",
         FleetEvent.device_disconnected "A",
         FleetEvent.disconnect_finished] ∧
    getSess (disconnect_ble_devices
        ⟨[⟨"A", true, true⟩, ⟨"B", true, true⟩], ["A", "B"], [], []⟩).pool "B"
      = some ⟨"B", true, true⟩ ∧
    (disconnect_ble_devices
        ⟨[⟨"A", true, true⟩, ⟨"B", true, true⟩], ["A", "B"], [], []⟩).deviceAddrs
      = ["B"] := by
  refine ⟨?_, ?_, ?_⟩ <;> rfl

theorem getSess_setRunningFalse (pool : List Sess) (a : String) :
    getSess (setRunningFalse pool a) a
      = (getSess pool a).map (fun s => { s with running := false }) := by
  induction pool with
  | nil => rfl
  | cons s t ih =>
      have hset : setRunningFalse (s :: t) a
          = (if s.addr == a then { s with running := false } else s) ::
            setRunningFalse t a := rfl
      rw [hset]
      by_cases hs : s.addr = a
      · rw [if_pos (by simp [hs])]
        unfold getSess
        rw [List.find?_cons_of_pos _ (by simp [hs]),
            List.find?_cons_of_pos _ (by simp [hs])]
        rfl
      · rw [if_neg (by simp [hs])]
        unfold getSess
        rw [List.find?_cons_of_neg _ (by simp [hs]),
            List.find?_cons_of_neg _ (by simp [hs])]
        exact ih

/-- C8: when the transport disconnect callback fires for a running session,
afterwards the session is no longer running, its address has been appended
to the blacklist, the address is gone from the fleet map, and the
disconnected event was emitted exactly once when the session was in the map
and not at all otherwise. -/
theorem C8_handle_disconnect_effects (st : FleetState) (a : String) (s : Sess)
    (hs : getSess st.pool a = some s) (_hr : s.running = true)
    (hnd : st.deviceAddrs.Nodup) :
    getSess (handle_disconnect st a).pool a
      = some { s with running := false } ∧
    (handle_disconnect st a).blacklisted_ids = st.blacklisted_ids ++ [a] ∧
    a ∉ (handle_disconnect st a).deviceAddrs ∧
    (handle_disconnect st a).events
      = st.events ++
          (if a ∈ st.deviceAddrs then [FleetEvent.device_disconnected a]
           else []) := by
  unfold handle_disconnect
  by_cases hm : a ∈ st.deviceAddrs
  · rw [if_pos hm, if_pos hm]
    refine ⟨?_, rfl, ?_, rfl⟩
    · show getSess (setRunningFalse st.pool a) a
        = some { s with running := false }
      rw [getSess_setRunningFalse, hs]
      rfl
    · intro hmem
      have hmem2 : a ∈ st.deviceAddrs.erase a := hmem
      rw [List.Nodup.mem_erase_iff hnd] at hmem2
      exact hmem2.1 rfl
  · rw [if_neg hm, if_neg hm]
    refine ⟨?_, rfl, hm, ?_⟩
    · show getSess (setRunningFalse st.pool a) a
        = some { s with running := false }
      rw [getSess_setRunningFalse, hs]
      rfl
    · show st.events = st.events ++ []
      rw [List.append_nil]

/-- C8 witness: the callback applied to a one-session fleet. -/
theorem C8_handle_disconnect_effects_witness :
    getSess (handle_disconnect ⟨[⟨"A", true, false⟩], ["A"], [], []⟩ "A").pool
        "A" = some { (⟨"A", true, false⟩ : Sess) with running := false } ∧
    (handle_disconnect
        ⟨[⟨"A", true, false⟩], ["A"], [], []⟩ "A").blacklisted_ids
      = [] ++ ["A"] ∧
    "A" ∉ (handle_disconnect
        ⟨[⟨"A", true, false⟩], ["A"], [], []⟩ "A").deviceAddrs ∧
    (handle_disconnect ⟨[⟨"A", true, false⟩], ["A"], [], []⟩ "A").events
      = [] ++
          (if "A" ∈ (⟨[⟨"A", true, false⟩], ["A"], [], []⟩ :
              FleetState).deviceAddrs
           then [FleetEvent.device_disconnected "A"] else []) :=
  C8_handle_disconnect_effects ⟨[⟨"A", true, false⟩], ["A"], [], []⟩ "A"
    ⟨"A", true, false⟩ rfl rfl (by decide)

/-- C10: an explicit Device.disconnect_device never modifies the blacklist,
while the out-of-band transport callback Device.handle_disconnect is the
operation that appends the peer address; an explicitly disconnected peer
therefore stays eligible for rediscovery in the same scan cycle. -/
theorem C10_disconnect_device_blacklist_frame (st : FleetState) (a : String) :
    (disconnect_device st a).blacklisted_ids = st.blacklisted_ids ∧
    (handle_disconnect st a).blacklisted_ids = st.blacklisted_ids ++ [a] := by
  constructor
  · unfold disconnect_device
    split
    · rfl
    · split
      · rfl
      · split
        · rfl
        · rfl
  · unfold handle_disconnect
    split
    · rfl
    · rfl

end BBQ
